import Mathlib

/-!
Shallow embedding of the `macos-netstat` repository (Python) in Lean 4.

Source files embedded:
* `src/bandwidth.py`  — bandwidth-delta estimator (`get_bandwidth`);
* `src/network.py`    — connectivity prober (`check_connection`, `measure_latency`);
* `src/history.py`    — bounded history store (`HistoryLogger`);
* `src/config.py`     — settings store (`Config`);
* `src/main.py`       — connection state tracker (`NetStatApp.check_status`,
  `NetStatApp._handle_state_change`, `NetStatApp.show_settings`).

Modelling conventions:
* Python floats (`time.time()`, rates) are modelled as `ℚ`; byte counters as
  `ℤ` (Python integers are unbounded and deltas may be negative).
* I/O is made explicit: functions that read the clock, the network or a file
  take the observed value as an argument; functions that write a file return
  the new file contents; a fallible save takes a boolean saying whether the
  write succeeded.
* Python `dict` is modelled as `String → Option` maps; a key absent from the
  dict is `none`.  A JSON file on disk is `Option` (missing file = `none`),
  and a file that exists is `Option` again for the parse result (malformed
  JSON = `none`).
* Side effects of the state tracker (history append, desktop alert, latency
  probe, state commit) are recorded in an explicit effect trace so that the
  order of effects within one tick is provable.
-/

namespace NetStat

/-! ### src/bandwidth.py -/

/-- The module-level `_prev_stats` dict of `bandwidth.py`:
`{"bytes_sent": …, "bytes_recv": …, "timestamp": …}`. -/
structure PrevStats where
  bytes_sent : ℤ
  bytes_recv : ℤ
  timestamp : ℚ
deriving DecidableEq, Repr

/-- Initial `_prev_stats` value (also what `reset_bandwidth_stats` restores):
all three fields zero; `timestamp = 0` is the "no baseline yet" sentinel. -/
def initPrevStats : PrevStats := ⟨0, 0, 0⟩

/-- The slice of `psutil.net_io_counters()` that `get_bandwidth` reads. -/
structure NetIOCounters where
  bytes_sent : ℤ
  bytes_recv : ℤ
deriving DecidableEq, Repr

/-- `bandwidth.get_bandwidth`, with the ambient state made explicit:
`prev` is the global `_prev_stats` before the call, `current_time` the value
of `time.time()`, `current_stats` the value of `psutil.net_io_counters()`.
Returns the pair `(download_speed, upload_speed)` together with the new
`_prev_stats`.  Mirrors the source line by line:
first-call check (`timestamp == 0`), zero time-delta early return (state kept),
counter-reset check (state re-baselined), rate computation
`(delta / time_delta) / (1024 * 1024)` (state advanced). -/
def get_bandwidth (prev : PrevStats) (current_time : ℚ)
    (current_stats : NetIOCounters) :
    (Option ℚ × Option ℚ) × PrevStats :=
  if prev.timestamp = 0 then
    ((none, none),
     ⟨current_stats.bytes_sent, current_stats.bytes_recv, current_time⟩)
  else
    let time_delta := current_time - prev.timestamp
    if time_delta = 0 then
      ((none, none), prev)
    else
      let sent_delta := current_stats.bytes_sent - prev.bytes_sent
      let recv_delta := current_stats.bytes_recv - prev.bytes_recv
      if sent_delta < 0 ∨ recv_delta < 0 then
        ((none, none),
         ⟨current_stats.bytes_sent, current_stats.bytes_recv, current_time⟩)
      else
        let download_speed := ((recv_delta : ℚ) / time_delta) / (1024 * 1024)
        let upload_speed := ((sent_delta : ℚ) / time_delta) / (1024 * 1024)
        ((some download_speed, some upload_speed),
         ⟨current_stats.bytes_sent, current_stats.bytes_recv, current_time⟩)

/-! ### src/network.py -/

/-- The transport-level failure kinds the spec enumerates.  In the source all
of them surface as a `requests.RequestException` / `OSError` and are caught by
the same `except` clause; the kind is carried here only to state that the
treatment is uniform. -/
inductive TransportFailure
  | dns
  | tcp
  | tls
  | timeout
deriving DecidableEq, Repr

/-- Outcome of one `requests.get(TEST_ENDPOINT, timeout=TIMEOUT)` call:
either an HTTP response with its status code and the elapsed wall-clock time
`end - start` in seconds, or a raised transport exception. -/
inductive ProbeOutcome
  | success (status : ℕ) (elapsed : ℚ)
  | failure (kind : TransportFailure)
deriving DecidableEq, Repr

/-- Python `int()` applied to a rational: truncation toward zero. -/
def pyInt (x : ℚ) : ℤ := if 0 ≤ x then ⌊x⌋ else ⌈x⌉

/-- `network.check_connection`: `response.status_code == 204` on a response,
`False` on any caught transport exception. -/
def check_connection : ProbeOutcome → Bool
  | .success status _ => status == 204
  | .failure _ => false

/-- `network.measure_latency`: `int((end - start) * 1000)` milliseconds when
the response status is 204, otherwise `None` (non-204 response or caught
transport exception). -/
def measure_latency : ProbeOutcome → Option ℤ
  | .success status elapsed =>
      if status == 204 then some (pyInt (elapsed * 1000)) else none
  | .failure _ => none

/-! ### src/history.py -/

/-- One history entry as built by `HistoryLogger.log_event`: a dict with keys
`timestamp` (ISO string, opaque here), `event`, and optional `latency` and
`details` (the key is present exactly when the argument is not `None`). -/
structure HistoryEntry where
  timestamp : String
  event : String
  latency : Option ℤ
  details : Option String
deriving DecidableEq, Repr

/-- Python `lst[-n:]` for a natural `n`: the last `n` elements, except that
`lst[-0:]` is the whole list. -/
def pySliceLast (l : List α) (n : ℕ) : List α :=
  if n = 0 then l else l.drop (l.length - n)

/-- The `HistoryLogger` state: `max_entries` and the in-memory `_history`. -/
structure HistoryLogger where
  max_entries : ℕ
  history : List HistoryEntry
deriving DecidableEq, Repr

/-- `HistoryLogger.load`, with the file made explicit:
`none` = `HISTORY_FILE` does not exist (history becomes `[]`);
`some none` = file exists but `json.load` raises (history becomes `[]`);
`some (some entries)` = file parses (history becomes exactly `entries`;
note the source does **not** trim to `max_entries` here). -/
def HistoryLogger.load (h : HistoryLogger)
    (file : Option (Option (List HistoryEntry))) : HistoryLogger :=
  match file with
  | some (some entries) => { h with history := entries }
  | some none => { h with history := [] }
  | none => { h with history := [] }

/-- `HistoryLogger.__init__` with `max_entries = MAX_HISTORY_ENTRIES = 100`:
empty in-memory history, then `load()` from the given file. -/
def HistoryLogger.init (file : Option (Option (List HistoryEntry))) :
    HistoryLogger :=
  HistoryLogger.load ⟨100, []⟩ file

/-- `HistoryLogger.log_event`: build the entry (timestamp from
`datetime.now().isoformat()`, passed in here), append it, and if
`len(self._history) > self.max_entries` keep `self._history[-max_entries:]`.
The trailing `self.save()` writes the file and is outside this state
transition. -/
def HistoryLogger.log_event (h : HistoryLogger) (ts : String)
    (event_type : String) (latency : Option ℤ) (details : Option String) :
    HistoryLogger :=
  let entry : HistoryEntry := ⟨ts, event_type, latency, details⟩
  let hist := h.history ++ [entry]
  let hist :=
    if hist.length > h.max_entries then pySliceLast hist h.max_entries
    else hist
  ⟨h.max_entries, hist⟩

/-! ### src/config.py -/

/-- A JSON-representable config value: the defaults use ints and bools. -/
inductive CVal
  | int (n : ℤ)
  | bool (b : Bool)
deriving DecidableEq, Repr

/-- Python truthiness of a config value (`if self.config.get(...)`). -/
def CVal.truthy : CVal → Bool
  | .int n => n != 0
  | .bool b => b

/-- A Python dict with string keys, as a partial map. -/
def PyDict := String → Option CVal

/-- `dict[key] = value`. -/
def PyDict.setKey (d : PyDict) (k : String) (v : CVal) : PyDict :=
  fun k2 => if k2 = k then some v else d k2

/-- `{**d1, **d2}`: keys of `d2` override keys of `d1`. -/
def PyDict.merge (d1 d2 : PyDict) : PyDict :=
  fun k => match d2 k with
    | some v => some v
    | none => d1 k

/-- `config.DEFAULT_CONFIG`. -/
def DEFAULT_CONFIG : PyDict := fun k =>
  if k = "check_interval" then some (.int 5)
  else if k = "notifications_enabled" then some (.bool true)
  else if k = "bandwidth_enabled" then some (.bool true)
  else if k = "auto_start" then some (.bool false)
  else none

/-- The `Config` object: its in-memory `_config` dict. -/
structure Config where
  _config : PyDict

/-- `Config.get(key, default)`: `self._config.get(key, default)`. -/
def Config.get (c : Config) (key : String) (default : Option CVal := none) :
    Option CVal :=
  match c._config key with
  | some v => some v
  | none => default

/-- `Config.load`, with the file made explicit:
`none` = `CONFIG_FILE` does not exist (in-memory config kept as is);
`some none` = file exists, `json.load` raises (config reset to defaults);
`some (some loaded)` = file parses (config becomes `{**DEFAULT_CONFIG, **loaded}`). -/
def Config.load (c : Config) (file : Option (Option PyDict)) : Config :=
  match file with
  | some (some loaded) => ⟨PyDict.merge DEFAULT_CONFIG loaded⟩
  | some none => ⟨DEFAULT_CONFIG⟩
  | none => c

/-- `Config.__init__`: defaults, then `load()` from the given file. -/
def Config.init (file : Option (Option PyDict)) : Config :=
  Config.load ⟨DEFAULT_CONFIG⟩ file

/-- `Config.save`, with the file and the I/O outcome explicit: on success the
file becomes a dump of `self._config` and `True` is returned; on an `IOError`
the file is unchanged and `False` is returned. -/
def Config.save (c : Config) (ioOk : Bool) (file : Option PyDict) :
    Option PyDict × Bool :=
  if ioOk then (some c._config, true) else (file, false)

/-- `Config.set`: `self._config[key] = value` **then** `return self.save()`.
Returns the updated config object, the new file contents and the boolean
result of the save. -/
def Config.set (c : Config) (key : String) (value : CVal) (ioOk : Bool)
    (file : Option PyDict) : Config × Option PyDict × Bool :=
  let c2 : Config := ⟨c._config.setKey key value⟩
  let saved := c2.save ioOk file
  (c2, saved.1, saved.2)

/-! ### src/main.py — the connection state tracker -/

/-- Result of `network.get_connection_info()` as consumed by
`_handle_state_change`: the `type` string and the optional `ssid`. -/
structure ConnInfo where
  type : String
  ssid : Option String
deriving DecidableEq, Repr

/-- The detail string built in `_handle_state_change` for a `connected`
event: `f"{info.get('type', 'Unknown')}"`, extended with `" - {ssid}"` when
`info.get('ssid')` is truthy (a non-empty string). -/
def connDetails (info : ConnInfo) : String :=
  match info.ssid with
  | some s => if s = "" then info.type else info.type ++ " - " ++ s
  | none => info.type

/-- Everything one tick of `check_status` observes from the outside world:
the clock, the probe result, the two `measure_latency()` calls (one inside
`_handle_state_change`, one in `check_status` after it), the
`get_connection_info()` result, the timestamp string used by `log_event`, and
what `_update_ui`'s `get_bandwidth()` call observes. -/
structure TickInput where
  now : ℚ
  probe : Bool
  lat_handler : Option ℤ
  lat_refresh : Option ℤ
  info : ConnInfo
  ts : String
  bw_time : ℚ
  counters : NetIOCounters

/-- One observable side effect of a tick, in program order. -/
inductive Effect
  | commitState (b : Bool)
  | measureLatency
  | getConnectionInfo
  | logEvent (event : String)
  | notify (title subtitle message : String) (sound : Bool)
  | updateUI
deriving DecidableEq, Repr

/-- The mutable fields of `NetStatApp` that the tracker touches. -/
structure AppState where
  config : Config
  history : HistoryLogger
  is_connected : Bool
  current_latency : Option ℤ
  is_paused : Bool
  last_check_time : Option ℚ
  prev_stats : PrevStats

/-- `NetStatApp.__init__` state (after `start_monitoring` reset the bandwidth
stats): disconnected, no latency, not paused, never checked. -/
def initialAppState (cfg : Config) (hist : HistoryLogger) : AppState :=
  { config := cfg, history := hist, is_connected := false,
    current_latency := none, is_paused := false, last_check_time := none,
    prev_stats := initPrevStats }

/-- `self.config.get("notifications_enabled", True)` followed by Python
truthiness of the result. -/
def Config.notificationsEnabled (c : Config) : Bool :=
  match c.get "notifications_enabled" (some (.bool true)) with
  | some v => v.truthy
  | none => false

/-- The notifications gate read off the app's configuration. -/
def AppState.notificationsEnabled (s : AppState) : Bool :=
  s.config.notificationsEnabled

/-- `self.config.get("bandwidth_enabled", True)` followed by Python
truthiness of the result. -/
def Config.bandwidthEnabled (c : Config) : Bool :=
  match c.get "bandwidth_enabled" (some (.bool true)) with
  | some v => v.truthy
  | none => false

/-- The bandwidth gate read off the app's configuration. -/
def AppState.bandwidthEnabled (s : AppState) : Bool :=
  s.config.bandwidthEnabled

/-- `NetStatApp._handle_state_change`, reading `self.is_connected` (already
set to the fresh probe result by `check_status`).  Connected branch:
`measure_latency()`, `get_connection_info()`, `log_event("connected", …)`,
then `rumps.notification(...)` if notifications are enabled.  Disconnected
branch: `log_event("disconnected", details="Connection lost")`, then the
notification if enabled.  Returns the new state and the effect trace. -/
def handle_state_change (s : AppState) (inp : TickInput) :
    AppState × List Effect :=
  if s.is_connected then
    let latency := inp.lat_handler
    let details := connDetails inp.info
    let s2 :=
      { s with history := s.history.log_event inp.ts "connected" latency
                            (some details) }
    let effs := [Effect.measureLatency, Effect.getConnectionInfo,
                 Effect.logEvent "connected"]
    let effs :=
      if s.notificationsEnabled then
        effs ++ [Effect.notify "Internet Connected"
          (match latency with
           | some l => if l != 0 then "Latency: " ++ toString l ++ "ms"
                       else "Connected"
           | none => "Connected")
          details true]
      else effs
    (s2, effs)
  else
    let s2 :=
      { s with history := s.history.log_event inp.ts "disconnected" none
                            (some "Connection lost") }
    let effs := [Effect.logEvent "disconnected"]
    let effs :=
      if s.notificationsEnabled then
        effs ++ [Effect.notify "Internet Disconnected"
          "No internet connection" "Please check your network settings" true]
      else effs
    (s2, effs)

/-- The `get_bandwidth()` call inside `NetStatApp._update_ui` (the only part
of `_update_ui` that changes tracked state; the rest renders menu titles,
which is presentation-layer and out of scope per the spec). -/
def update_ui (s : AppState) (inp : TickInput) : AppState :=
  if s.bandwidthEnabled then
    { s with prev_stats := (get_bandwidth s.prev_stats inp.bw_time
                              inp.counters).2 }
  else s

/-- `NetStatApp.check_status`: return immediately when paused; record the
check time; `was_connected = self.is_connected`;
`self.is_connected = check_connection()` (the commit of the tracked state,
recorded as `Effect.commitState`); call `_handle_state_change()` iff the
result differs from `was_connected`; refresh `self.current_latency`
(`measure_latency()` while connected, `None` otherwise); `_update_ui()`. -/
def check_status (s : AppState) (inp : TickInput) : AppState × List Effect :=
  if s.is_paused then (s, [])
  else
    let was_connected := s.is_connected
    let s1 := { s with last_check_time := some inp.now,
                       is_connected := inp.probe }
    let step2 :=
      if was_connected != s1.is_connected then handle_state_change s1 inp
      else (s1, [])
    let s2 := step2.1
    let s3 :=
      { s2 with current_latency :=
          if s2.is_connected then inp.lat_refresh else none }
    let lat_effs :=
      if s2.is_connected then [Effect.measureLatency] else ([] : List Effect)
    (update_ui s3 inp,
     Effect.commitState inp.probe :: step2.2 ++ lat_effs ++ [Effect.updateUI])

/-- Fold `check_status` over a list of tick inputs, concatenating traces. -/
def run_ticks (s : AppState) : List TickInput → AppState × List Effect
  | [] => (s, [])
  | i :: is =>
      let step := check_status s i
      let rest := run_ticks step.1 is
      (rest.1, step.2 ++ rest.2)

/-- `NetStatApp.show_settings`, after the user clicked Save: the dialog text
is parsed with `int(...)` (`none` models a `ValueError`); a value in `[1, 60]`
is stored via `Config.set` and a "Settings Saved" alert shown; anything else
produces an "Invalid Value" alert and never reaches the store. -/
inductive SettingsOutcome
  | saved
  | invalidRange
  | invalidNumber
deriving DecidableEq, Repr

/-- The state transition of `NetStatApp.show_settings` on a Save click. -/
def show_settings (c : Config) (ioOk : Bool) (file : Option PyDict)
    (text : Option ℤ) : Config × Option PyDict × SettingsOutcome :=
  match text with
  | none => (c, file, .invalidNumber)
  | some interval =>
    if 1 ≤ interval ∧ interval ≤ 60 then
      let r := c.set "check_interval" (.int interval) ioOk file
      (r.1, r.2.1, .saved)
    else
      (c, file, .invalidRange)

/-- A fixed sample tick input used by concrete instantiations: probe result
`b`, all observations trivial. -/
def sampleInput (b : Bool) : TickInput :=
  ⟨0, b, none, none, ⟨"Unknown", none⟩, "t", 0, ⟨0, 0⟩⟩

/-- A 101-entry persisted history file (more than the capacity of 100). -/
def oversizeFile : List HistoryEntry :=
  List.replicate 101 ⟨"t", "connected", none, none⟩

/-! ## Theorems -/

/-- C4: for consecutive samples with `t2 > t1` (the baseline being a genuine
earlier sample, i.e. its timestamp is not the `0` sentinel) and byte counters
non-decreasing in both directions, `get_bandwidth` returns download rate
`(bytesReceived2 - bytesReceived1)/(t2 - t1)/1048576` and upload rate
`(bytesSent2 - bytesSent1)/(t2 - t1)/1048576`, and stores the current sample
as the new baseline. -/
theorem C4_bandwidth_rate_formula (prev : PrevStats) (t : ℚ)
    (cur : NetIOCounters)
    (hbase : prev.timestamp ≠ 0) (ht : prev.timestamp < t)
    (hsent : prev.bytes_sent ≤ cur.bytes_sent)
    (hrecv : prev.bytes_recv ≤ cur.bytes_recv) :
    get_bandwidth prev t cur =
      ((some (((cur.bytes_recv - prev.bytes_recv : ℤ) : ℚ) /
          (t - prev.timestamp) / 1048576),
        some (((cur.bytes_sent - prev.bytes_sent : ℤ) : ℚ) /
          (t - prev.timestamp) / 1048576)),
       ⟨cur.bytes_sent, cur.bytes_recv, t⟩) := by
  have h1 : t - prev.timestamp ≠ 0 := sub_ne_zero.mpr (ne_of_gt ht)
  have h2 : ¬(cur.bytes_sent - prev.bytes_sent < 0 ∨
      cur.bytes_recv - prev.bytes_recv < 0) := by
    push_neg
    omega
  simp only [get_bandwidth, if_neg hbase, if_neg h1, if_neg h2]
  norm_num

/-- Witness for C4 at a concrete input. -/
theorem C4_witness :
    get_bandwidth ⟨0, 0, 1⟩ 2 ⟨1048576, 2097152⟩ =
      ((some 2, some 1), ⟨1048576, 2097152, 2⟩) := by
  rw [C4_bandwidth_rate_formula ⟨0, 0, 1⟩ 2 ⟨1048576, 2097152⟩
    (by norm_num) (by norm_num) (by norm_num) (by norm_num)]
  norm_num

/-- C5 counterexample: with a stored baseline at timestamp 10 and a call at
the earlier timestamp 5 (a backwards clock step), the zero-delta check is
passed (`time_delta = -5 ≠ 0`), both byte deltas are non-negative, and the
returned rates are `-1` MB/s — negative, refuting "the rates are never
negative ... because `deltaTime > 0` is guaranteed on every path that
performs the division" (only `deltaTime ≠ 0` is guaranteed). -/
theorem C5_counterexample_negative_rate :
    (get_bandwidth ⟨0, 0, 10⟩ 5 ⟨5242880, 5242880⟩).1 =
      (some (-1), some (-1)) ∧ ((-1 : ℚ) < 0) := by
  constructor
  · norm_num [get_bandwidth]
  · norm_num

/-- C5 (amended): whenever `get_bandwidth` returns rates, the division it
performed had a non-zero `time_delta` (so, modelling Python floats as exact
rationals, there is no division-by-zero and hence no NaN/Inf source); and
under the additional hypothesis that the clock did not run backwards
(`prev.timestamp ≤ t`) both rates are non-negative. -/
theorem C5_division_safe_rates_nonneg (prev : PrevStats) (t : ℚ)
    (cur : NetIOCounters) (d u : ℚ)
    (h : (get_bandwidth prev t cur).1 = (some d, some u)) :
    t - prev.timestamp ≠ 0 ∧ (prev.timestamp ≤ t → 0 ≤ d ∧ 0 ≤ u) := by
  by_cases h0 : prev.timestamp = 0
  · simp only [get_bandwidth, if_pos h0] at h
    simp at h
  by_cases h1 : t - prev.timestamp = 0
  · simp only [get_bandwidth, if_neg h0, if_pos h1] at h
    simp at h
  by_cases h2 : cur.bytes_sent - prev.bytes_sent < 0 ∨
      cur.bytes_recv - prev.bytes_recv < 0
  · simp only [get_bandwidth, if_neg h0, if_neg h1, if_pos h2] at h
    simp at h
  · simp only [get_bandwidth, if_neg h0, if_neg h1, if_neg h2,
      Prod.mk.injEq, Option.some.injEq] at h
    refine ⟨h1, fun hle => ?_⟩
    push_neg at h2
    have htpos : 0 < t - prev.timestamp :=
      lt_of_le_of_ne (by linarith) (Ne.symm h1)
    have hd : (0 : ℚ) ≤ ((cur.bytes_recv - prev.bytes_recv : ℤ) : ℚ) := by
      exact_mod_cast h2.2
    have hu : (0 : ℚ) ≤ ((cur.bytes_sent - prev.bytes_sent : ℤ) : ℚ) := by
      exact_mod_cast h2.1
    constructor
    · rw [← h.1]
      positivity
    · rw [← h.2]
      positivity

/-- Witness for C5 at a concrete input. -/
theorem C5_witness :
    2 - (⟨0, 0, 1⟩ : PrevStats).timestamp ≠ 0 ∧
      ((⟨0, 0, 1⟩ : PrevStats).timestamp ≤ 2 →
        (0 : ℚ) ≤ 1 ∧ (0 : ℚ) ≤ 1) :=
  C5_division_safe_rates_nonneg ⟨0, 0, 1⟩ 2 ⟨1048576, 1048576⟩ 1 1
    (by norm_num [get_bandwidth])

/-- C6: a call whose timestamp equals a genuine stored baseline's timestamp
(`time_delta = 0`) returns `(None, None)` and leaves the stored baseline
entirely unchanged. -/
theorem C6_zero_delta_keeps_baseline (prev : PrevStats) (cur : NetIOCounters)
    (hbase : prev.timestamp ≠ 0) :
    get_bandwidth prev prev.timestamp cur = ((none, none), prev) := by
  simp [get_bandwidth, if_neg hbase]

/-- Witness for C6 at a concrete input. -/
theorem C6_witness :
    get_bandwidth ⟨3, 4, 5⟩ 5 ⟨9, 9⟩ = ((none, none), ⟨3, 4, 5⟩) :=
  C6_zero_delta_keeps_baseline ⟨3, 4, 5⟩ ⟨9, 9⟩ (by norm_num)

/-- C7 counterexample: when a byte counter has decreased **and** the call is
at the same instant as the baseline (`time_delta = 0`), the zero-delta early
return fires first: `get_bandwidth` returns `(None, None)` but keeps the old
baseline instead of replacing it with the current sample, so the claim's
unconditional "replaces the stored baseline" is false. -/
theorem C7_counterexample_same_instant_reset :
    ((500 : ℤ) - 1000 < 0) ∧
      get_bandwidth ⟨1000, 1000, 10⟩ 10 ⟨500, 500⟩ =
        ((none, none), ⟨1000, 1000, 10⟩) ∧
      (⟨1000, 1000, 10⟩ : PrevStats) ≠ ⟨500, 500, 10⟩ := by
  refine ⟨by norm_num, ?_, by decide⟩
  norm_num [get_bandwidth]

/-- C7 (amended): when either byte delta against a genuine stored baseline is
negative and the call is not at the very same instant as the baseline
(`time_delta ≠ 0`), `get_bandwidth` returns `(None, None)` and replaces the
stored baseline with the current sample (a silent re-baseline); at equal
timestamps the zero-delta early return takes precedence and the baseline is
kept. -/
theorem C7_counter_reset_rebaseline (prev : PrevStats) (t : ℚ)
    (cur : NetIOCounters)
    (hbase : prev.timestamp ≠ 0) (ht : t ≠ prev.timestamp)
    (hreset : cur.bytes_sent < prev.bytes_sent ∨
      cur.bytes_recv < prev.bytes_recv) :
    get_bandwidth prev t cur =
      ((none, none), ⟨cur.bytes_sent, cur.bytes_recv, t⟩) := by
  have h1 : t - prev.timestamp ≠ 0 := sub_ne_zero.mpr ht
  have h2 : cur.bytes_sent - prev.bytes_sent < 0 ∨
      cur.bytes_recv - prev.bytes_recv < 0 := by omega
  simp only [get_bandwidth, if_neg hbase, if_neg h1, if_pos h2]

/-- Witness for C7 at a concrete input. -/
theorem C7_witness :
    get_bandwidth ⟨1000, 1000, 10⟩ 11 ⟨500, 1500⟩ =
      ((none, none), ⟨500, 1500, 11⟩) :=
  C7_counter_reset_rebaseline ⟨1000, 1000, 10⟩ 11 ⟨500, 1500⟩
    (by norm_num) (by norm_num) (Or.inl (by norm_num))

/-- `_update_ui` never touches the history store. -/
@[simp]
theorem update_ui_history (s : AppState) (inp : TickInput) :
    (update_ui s inp).history = s.history := by
  unfold update_ui
  split <;> rfl

/-- `_update_ui` never touches the tracked connection state. -/
@[simp]
theorem update_ui_is_connected (s : AppState) (inp : TickInput) :
    (update_ui s inp).is_connected = s.is_connected := by
  unfold update_ui
  split <;> rfl

/-- `_update_ui` never touches the pause flag. -/
@[simp]
theorem update_ui_is_paused (s : AppState) (inp : TickInput) :
    (update_ui s inp).is_paused = s.is_paused := by
  unfold update_ui
  split <;> rfl

/-- `_update_ui` never touches the configuration. -/
@[simp]
theorem update_ui_config (s : AppState) (inp : TickInput) :
    (update_ui s inp).config = s.config := by
  unfold update_ui
  split <;> rfl

/-- The notifications gate only reads the `config` field, so it is
unaffected by the per-tick record updates. -/
@[simp]
theorem notificationsEnabled_mk (c : Config) (hl : HistoryLogger) (b1 : Bool)
    (cl : Option ℤ) (b2 : Bool) (t : Option ℚ) (p : PrevStats) :
    AppState.notificationsEnabled ⟨c, hl, b1, cl, b2, t, p⟩ =
      c.notificationsEnabled := rfl

/-- A tick whose probe result equals the current state fires no transition:
history, connection state, pause flag and configuration are all unchanged. -/
theorem tick_no_transition (s : AppState) (inp : TickInput)
    (hp : s.is_paused = false) (heq : inp.probe = s.is_connected) :
    (check_status s inp).1.history = s.history ∧
    (check_status s inp).1.is_connected = s.is_connected ∧
    (check_status s inp).1.is_paused = false ∧
    (check_status s inp).1.config = s.config := by
  simp [check_status, hp, heq]

/-- A tick whose probe result differs from the current state fires exactly
one transition: one history entry is appended (kind, latency and details
determined by the direction), the connection state becomes the probe result,
and pause flag and configuration are unchanged. -/
theorem tick_transition (s : AppState) (inp : TickInput)
    (hp : s.is_paused = false) (hne : inp.probe ≠ s.is_connected) :
    (check_status s inp).1.history =
      s.history.log_event inp.ts
        (cond inp.probe "connected" "disconnected")
        (cond inp.probe inp.lat_handler none)
        (some (cond inp.probe (connDetails inp.info) "Connection lost")) ∧
    (check_status s inp).1.is_connected = inp.probe ∧
    (check_status s inp).1.is_paused = false ∧
    (check_status s inp).1.config = s.config := by
  have hb : (s.is_connected != inp.probe) = true := by
    simp only [bne_iff_ne, ne_eq]
    exact fun h => hne h.symm
  cases hpb : inp.probe with
  | false =>
      rw [hpb] at hb
      simp [check_status, handle_state_change, hp, hb, hpb]
  | true =>
      rw [hpb] at hb
      simp [check_status, handle_state_change, hp, hb, hpb]

/-- C2 counterexample: `HistoryLogger.load` copies the persisted file's list
into the store without trimming, so constructing the store (capacity 100)
over a persisted file holding 101 entries leaves it holding 101 entries —
more than the capacity — refuting "the store holds at most 100 entries after
each operation" for the load operation. -/
theorem C2_counterexample_load_exceeds_capacity :
    (HistoryLogger.init (some (some oversizeFile))).history.length = 101 ∧
      ¬(HistoryLogger.init (some (some oversizeFile))).history.length ≤ 100 ∧
      (HistoryLogger.init (some (some oversizeFile))).max_entries = 100 := by
  refine ⟨?_, ?_, rfl⟩ <;>
    simp [HistoryLogger.init, HistoryLogger.load, oversizeFile]

/-- C2 (amended): construction starts empty; every `log_event` append leaves
the store with at most `max_entries` entries (capacity 100 in the app), and
an append onto a full store evicts exactly the oldest entry (FIFO); `load`,
however, replaces the store with exactly the persisted file's contents, with
no trimming, so a file holding more than the capacity yields an oversize
store until the next append. -/
theorem C2_append_capacity_fifo :
    (∀ (h : HistoryLogger) (ts ev : String) (lat : Option ℤ)
        (det : Option String), 0 < h.max_entries →
      (h.log_event ts ev lat det).history.length ≤ h.max_entries ∧
      (h.history.length = h.max_entries →
        (h.log_event ts ev lat det).history =
          h.history.tail ++ [⟨ts, ev, lat, det⟩]) ∧
      (h.history.length < h.max_entries →
        (h.log_event ts ev lat det).history =
          h.history ++ [⟨ts, ev, lat, det⟩])) ∧
    (∀ f : List HistoryEntry,
      (HistoryLogger.init (some (some f))).history = f) ∧
    (HistoryLogger.init none).history = [] := by
  refine ⟨fun h ts ev lat det hcap => ?_, fun f => rfl, rfl⟩
  have hn0 : h.max_entries ≠ 0 := Nat.pos_iff_ne_zero.mp hcap
  refine ⟨?_, fun hfull => ?_, fun hlt => ?_⟩
  · simp only [HistoryLogger.log_event]
    split_ifs with hgt
    · simp only [pySliceLast, if_neg hn0, List.length_drop]
      simp only [List.length_append, List.length_singleton] at hgt ⊢
      omega
    · simp only [List.length_append, List.length_singleton] at hgt ⊢
      omega
  · have hgt : (h.history ++ [(⟨ts, ev, lat, det⟩ : HistoryEntry)]).length >
        h.max_entries := by
      simp [hfull]
    simp only [HistoryLogger.log_event, if_pos hgt, pySliceLast,
      if_neg hn0]
    have hd : (h.history ++ [(⟨ts, ev, lat, det⟩ : HistoryEntry)]).length -
        h.max_entries = 1 := by
      simp [hfull]
    rw [hd]
    cases hh : h.history with
    | nil =>
        rw [hh] at hfull
        simp at hfull
        omega
    | cons a l => simp
  · have hng : ¬(h.history ++ [(⟨ts, ev, lat, det⟩ : HistoryEntry)]).length >
        h.max_entries := by
      simp only [List.length_append, List.length_singleton]
      omega
    simp only [HistoryLogger.log_event, if_neg hng]

/-- Witness for C2 at a concrete input: appending to a full capacity-2 store
keeps it at 2 entries and evicts exactly the oldest. -/
theorem C2_witness :
    ((⟨2, [⟨"t1", "connected", none, none⟩,
        ⟨"t2", "disconnected", none, none⟩]⟩ : HistoryLogger).log_event
      "t3" "connected" none none).history.length ≤ 2 ∧
    ((⟨2, [⟨"t1", "connected", none, none⟩,
        ⟨"t2", "disconnected", none, none⟩]⟩ : HistoryLogger).log_event
      "t3" "connected" none none).history =
      [⟨"t2", "disconnected", none, none⟩, ⟨"t3", "connected", none, none⟩] := by
  have h := C2_append_capacity_fifo.1
    ⟨2, [⟨"t1", "connected", none, none⟩, ⟨"t2", "disconnected", none, none⟩]⟩
    "t3" "connected" none none (by decide)
  exact ⟨h.1, by rw [h.2.1 (by decide)]; rfl⟩

/-- C8: the connectivity probe returns `True` iff the request completed with
HTTP status 204 (timeouts surface as a transport exception, covered by the
failure case); every transport failure kind (DNS, TCP, TLS, timeout) makes it
return `False` without raising; the latency operation returns the elapsed
wall-clock time, truncated to integer milliseconds, exactly when the same
request succeeds with 204, and `None` otherwise. -/
theorem C8_probe_semantics :
    (∀ o : ProbeOutcome,
      check_connection o = true ↔ ∃ e : ℚ, o = .success 204 e) ∧
    (∀ k : TransportFailure, check_connection (.failure k) = false) ∧
    (∀ e : ℚ, measure_latency (.success 204 e) = some (pyInt (e * 1000))) ∧
    (∀ o : ProbeOutcome, (∀ e : ℚ, o ≠ .success 204 e) →
      measure_latency o = none) := by
  refine ⟨fun o => ?_, fun k => rfl, fun e => by simp [measure_latency],
    fun o ho => ?_⟩
  · cases o with
    | success s e =>
        simp only [check_connection, beq_iff_eq]
        constructor
        · intro hs
          exact ⟨e, by rw [hs]⟩
        · rintro ⟨e2, he⟩
          injection he with h1 h2
    | failure k =>
        simp only [check_connection, Bool.false_eq_true, false_iff]
        rintro ⟨e, he⟩
        exact ProbeOutcome.noConfusion he
  · cases o with
    | success s e =>
        have hs : s ≠ 204 := by
          intro h
          exact ho e (by rw [h])
        simp [measure_latency, hs]
    | failure k => rfl

/-- Witness for C8 at concrete inputs: a timed-out probe reports not
connected; a 204 response after 40ms (`1/25` of a second) reports a latency
of exactly 40; the same response makes the probe report connected. -/
theorem C8_witness :
    check_connection (.failure .timeout) = false ∧
      measure_latency (.success 204 (1 / 25)) = some 40 ∧
      check_connection (.success 204 (1 / 25)) = true := by
  refine ⟨C8_probe_semantics.2.1 .timeout, ?_,
    (C8_probe_semantics.1 _).mpr ⟨1 / 25, rfl⟩⟩
  rw [C8_probe_semantics.2.2.1 (1 / 25)]
  norm_num [pyInt]

/-- C9: a `set("check_interval", 10)` whose save succeeds, followed by a
fresh construction that loads the persisted file, yields
`get("check_interval") = 10` (the defaults-merge lets persisted values
override defaults); and a Save click with interval 0 or 61 is rejected by
`show_settings` with an "Invalid Value" alert, leaving both the in-memory
configuration and the persisted file unchanged — no value reaches the
store. -/
theorem C9_settings_roundtrip_and_validation :
    (∀ (c : Config) (file : Option PyDict),
      (Config.init
          (((c.set "check_interval" (.int 10) true file).2.1).map some)).get
        "check_interval" = some (.int 10)) ∧
    (∀ (c : Config) (ioOk : Bool) (file : Option PyDict),
      show_settings c ioOk file (some 0) = (c, file, .invalidRange) ∧
      show_settings c ioOk file (some 61) = (c, file, .invalidRange)) := by
  constructor
  · intro c file
    simp [Config.set, Config.save, Config.init, Config.load, Config.get,
      PyDict.merge, PyDict.setKey]
  · intro c ioOk file
    constructor <;> simp [show_settings]

/-- C10: `Config.set` mutates the in-memory dict before attempting the save,
so when the save fails (`set` returns `False`) a subsequent `get` on the same
instance still returns the new value, and the persisted file is unchanged:
a persistence failure does not roll back the in-memory update. -/
theorem C10_set_keeps_value_on_failed_save (c : Config) (key : String)
    (v : CVal) (file : Option PyDict) :
    (c.set key v false file).1.get key = some v ∧
      (c.set key v false file).2.2 = false ∧
      (c.set key v false file).2.1 = file := by
  refine ⟨?_, rfl, rfl⟩
  simp [Config.set, Config.save, Config.get, PyDict.setKey]

/-- C1: starting from the initial state (Disconnected) with an empty history
store of capacity 100, feeding the probe-result sequence
`[Disconnected, Disconnected, Connected, Connected, Disconnected]` (one
result per tick) appends exactly two history entries, the first of kind
`connected` and the second of kind `disconnected`, in that order; and a tick
whose probe result equals the current state appends no entry. -/
theorem C1_state_tracker_sequence :
    (∀ (cfg : Config) (i1 i2 i3 i4 i5 : TickInput),
      i1.probe = false → i2.probe = false → i3.probe = true →
      i4.probe = true → i5.probe = false →
      ((run_ticks (initialAppState cfg ⟨100, []⟩)
          [i1, i2, i3, i4, i5]).1.history.history.map HistoryEntry.event) =
        ["connected", "disconnected"]) ∧
    (∀ (s : AppState) (inp : TickInput), s.is_paused = false →
      inp.probe = s.is_connected →
      (check_status s inp).1.history = s.history) := by
  constructor
  · intro cfg i1 i2 i3 i4 i5 h1 h2 h3 h4 h5
    show ((check_status (check_status (check_status (check_status
        (check_status (initialAppState cfg ⟨100, []⟩) i1).1 i2).1 i3).1
        i4).1 i5).1).history.history.map HistoryEntry.event =
      ["connected", "disconnected"]
    set s0 := initialAppState cfg ⟨100, []⟩ with hs0
    have p0 : s0.is_paused = false := rfl
    have c0 : s0.is_connected = false := rfl
    have H0 : s0.history = ⟨100, []⟩ := rfl
    have t1 := tick_no_transition s0 i1 p0 (h1.trans c0.symm)
    set s1 := (check_status s0 i1).1 with hs1
    have c1 : s1.is_connected = false := t1.2.1.trans c0
    have t2 := tick_no_transition s1 i2 t1.2.2.1 (h2.trans c1.symm)
    set s2 := (check_status s1 i2).1 with hs2
    have c2 : s2.is_connected = false := t2.2.1.trans c1
    have t3 := tick_transition s2 i3 t2.2.2.1 (by rw [h3, c2]; simp)
    set s3 := (check_status s2 i3).1 with hs3
    have c3 : s3.is_connected = true := t3.2.1.trans h3
    have H3 : s3.history =
        ⟨100, [⟨i3.ts, "connected", i3.lat_handler,
          some (connDetails i3.info)⟩]⟩ := by
      rw [t3.1, t2.1, t1.1, H0, h3]
      simp [HistoryLogger.log_event]
    have t4 := tick_no_transition s3 i4 t3.2.2.1 (h4.trans c3.symm)
    set s4 := (check_status s3 i4).1 with hs4
    have c4 : s4.is_connected = true := t4.2.1.trans c3
    have t5 := tick_transition s4 i5 t4.2.2.1 (by rw [h5, c4]; simp)
    have H5 : (check_status s4 i5).1.history =
        ⟨100, [⟨i3.ts, "connected", i3.lat_handler,
            some (connDetails i3.info)⟩,
          ⟨i5.ts, "disconnected", none, some "Connection lost"⟩]⟩ := by
      rw [t5.1, t4.1, H3, h5]
      simp [HistoryLogger.log_event]
    rw [H5]
    rfl
  · intro s inp hp heq
    exact (tick_no_transition s inp hp heq).1

/-- Witness for C1 at concrete inputs. -/
theorem C1_witness :
    ((run_ticks (initialAppState ⟨DEFAULT_CONFIG⟩ ⟨100, []⟩)
        [sampleInput false, sampleInput false, sampleInput true,
         sampleInput true, sampleInput false]).1.history.history.map
      HistoryEntry.event) = ["connected", "disconnected"] ∧
    (check_status (initialAppState ⟨DEFAULT_CONFIG⟩ ⟨100, []⟩)
        (sampleInput false)).1.history = (⟨100, []⟩ : HistoryLogger) :=
  ⟨C1_state_tracker_sequence.1 ⟨DEFAULT_CONFIG⟩ _ _ _ _ _ rfl rfl rfl rfl rfl,
   C1_state_tracker_sequence.2 (initialAppState ⟨DEFAULT_CONFIG⟩ ⟨100, []⟩)
     (sampleInput false) rfl rfl⟩

/-- C3 counterexample: at a concrete transition (initial Disconnected state
with the default configuration, probe result Connected), the tick's effect
trace is computed in full.  The commit of the tracked state
(`self.is_connected = check_connection()`) is the **first** effect of the
tick — it happens before the latency re-measurement, the metadata gathering,
the history append and the notification — refuting the claim that the commit
`S := R` happens last of all. -/
theorem C3_counterexample_commit_first :
    (check_status (initialAppState ⟨DEFAULT_CONFIG⟩ ⟨100, []⟩)
        (sampleInput true)).2 =
      [.commitState true, .measureLatency, .getConnectionInfo,
       .logEvent "connected",
       .notify "Internet Connected" "Connected" "Unknown" true,
       .measureLatency, .updateUI] ∧
    (check_status (initialAppState ⟨DEFAULT_CONFIG⟩ ⟨100, []⟩)
        (sampleInput true)).2.head? = some (.commitState true) := by
  constructor <;> rfl

/-- C3 (amended): on every tick where the fresh probe result differs from the
current state, the effects occur each exactly once, but the commit of the
tracked state `S := R` comes **first** (the probe result is assigned to
`self.is_connected` before `_handle_state_change` runs), followed in order
by: (a) latency re-measurement and connection-metadata gathering (only when
transitioning to Connected), (b) the append of one history entry, (c) a
notification request iff the `notifications_enabled` flag is truthy; after
the handler the tick's ordinary latency refresh performs one further latency
measurement when connected, and the UI update is last. -/
theorem C3_transition_effect_order (s : AppState) (inp : TickInput)
    (hp : s.is_paused = false) (hne : inp.probe ≠ s.is_connected) :
    (check_status s inp).2 =
      Effect.commitState inp.probe ::
        (if inp.probe then
          [Effect.measureLatency, Effect.getConnectionInfo,
           Effect.logEvent "connected"] ++
          (if s.notificationsEnabled then
            [Effect.notify "Internet Connected"
              (match inp.lat_handler with
               | some l => if l != 0 then "Latency: " ++ toString l ++ "ms"
                           else "Connected"
               | none => "Connected")
              (connDetails inp.info) true]
          else []) ++
          [Effect.measureLatency]
        else
          [Effect.logEvent "disconnected"] ++
          (if s.notificationsEnabled then
            [Effect.notify "Internet Disconnected" "No internet connection"
              "Please check your network settings" true]
          else [])) ++ [Effect.updateUI] := by
  have hb : (s.is_connected != inp.probe) = true := by
    simp only [bne_iff_ne, ne_eq]
    exact fun h => hne h.symm
  cases hpb : inp.probe with
  | false =>
      rw [hpb] at hb
      by_cases hn : s.config.notificationsEnabled <;>
        simp [check_status, handle_state_change, AppState.notificationsEnabled,
          hp, hb, hpb, hn]
  | true =>
      rw [hpb] at hb
      by_cases hn : s.config.notificationsEnabled <;>
        simp [check_status, handle_state_change, AppState.notificationsEnabled,
          hp, hb, hpb, hn]

/-- Witness for C3 (amended) at a concrete input. -/
theorem C3_witness :
    (check_status (initialAppState ⟨DEFAULT_CONFIG⟩ ⟨100, []⟩)
        (sampleInput true)).2.head? = some (Effect.commitState true) := by
  rw [C3_transition_effect_order (initialAppState ⟨DEFAULT_CONFIG⟩ ⟨100, []⟩)
    (sampleInput true) rfl (by decide)]
  rfl

end NetStat
